import Mathlib

/-!
Verification of the resilient HTTP dispatch layer of `nidhz_ultimate`
(`src/nidhz_ultimate/utils/http_client.py`, class `HTTPClient`).

The Python class is a thin wrapper over `requests` + `urllib3`.  The retry
and backoff behaviour the claims talk about is the behaviour of the
`urllib3.util.retry.Retry` object the constructor builds
(`Retry(total=retries, backoff_factor=0.5,
status_forcelist=[429,500,502,503,504],
allowed_methods=["GET","POST","HEAD"])`) as executed by
`urllib3.connectionpool.HTTPConnectionPool.urlopen` and translated back into
`requests` exceptions by `requests.adapters.HTTPAdapter.send`.  Those library
fragments are embedded here faithfully from their sources (urllib3 1.26.x /
2.x, whose relevant code and defaults agree: `raise_on_status=True`,
backoff cap 120 seconds, zero backoff before the first retry).

The transport (network) is abstracted as an oracle: either the server
answers every attempt with some response (a function from the attempt index
to a response), or the transport raises one of the exception classes that
`HTTPClient._request` handles.  Responses in this model carry no
`Retry-After` header, so `Retry.is_retry` reduces to the method check plus
the `status_forcelist` membership check.
-/

namespace NidhzHTTP

/-- An HTTP response as far as the dispatch layer observes it: the status
code.  (`_request` also flattens `response.elapsed` to seconds; no claim
depends on that field.) -/
structure Response where
  status : Nat
  deriving DecidableEq, Repr

/-- The fixed pool of browser identity strings in
`HTTPClient._get_random_user_agent`. -/
def userAgentPool : List String :=
  ["Mozilla/5.0 (Windows NT 10.0; Win64; x64) AppleWebKit/537.36 (KHTML, like Gecko) Chrome/120.0.0.0 Safari/537.36",
   "Mozilla/5.0 (Windows NT 10.0; Win64; x64) AppleWebKit/537.36 (KHTML, like Gecko) Chrome/119.0.0.0 Safari/537.36",
   "Mozilla/5.0 (Macintosh; Intel Mac OS X 10_15_7) AppleWebKit/537.36 (KHTML, like Gecko) Chrome/120.0.0.0 Safari/537.36",
   "Mozilla/5.0 (X11; Linux x86_64) AppleWebKit/537.36 (KHTML, like Gecko) Chrome/120.0.0.0 Safari/537.36",
   "Mozilla/5.0 (Windows NT 10.0; Win64; x64; rv:109.0) Gecko/20100101 Firefox/121.0"]

/-- `HTTPClient._get_random_user_agent`: `random.choice(user_agents)`.
The random source is made explicit: a natural number reduced modulo the
pool size selects the entry. -/
def getRandomUserAgent (rand : Nat) : String :=
  userAgentPool.get ⟨rand % userAgentPool.length, Nat.mod_lt rand (by decide)⟩

/-- The retry configuration fields of `urllib3.util.retry.Retry` that the
status-retry path consults.  `raise_on_status` and `backoff_max` keep the
urllib3 defaults (`True`, 120 seconds) because `HTTPClient.__init__` does
not override them. -/
structure Retry where
  total : Nat
  backoff_factor : ℚ
  status_forcelist : List Nat
  allowed_methods : List String
  raise_on_status : Bool
  backoff_max : ℚ
  deriving DecidableEq, Repr

/-- The `retry_strategy` built in `HTTPClient.__init__`:
`Retry(total=retries, backoff_factor=0.5,
status_forcelist=[429, 500, 502, 503, 504],
allowed_methods=["GET", "POST", "HEAD"])`. -/
def mkRetryStrategy (retries : Nat) : Retry :=
  { total := retries
    backoff_factor := (0.5 : ℚ)
    status_forcelist := [429, 500, 502, 503, 504]
    allowed_methods := ["GET", "POST", "HEAD"]
    raise_on_status := true
    backoff_max := 120 }

/-- `Retry._is_method_retryable`: false iff `allowed_methods` is nonempty
and does not contain the (upper-cased) method.  The dispatcher always
passes upper-case method names. -/
def Retry.isMethodRetryable (r : Retry) (method : String) : Bool :=
  if r.allowed_methods.isEmpty then true else r.allowed_methods.contains method

/-- `Retry.is_retry` for a response without a `Retry-After` header: the
method must be retryable and the status must be in `status_forcelist`
(the trailing `respect_retry_after_header` disjunct needs a `Retry-After`
header, absent in this model). -/
def Retry.isRetry (r : Retry) (method : String) (status : Nat) : Bool :=
  r.isMethodRetryable method && r.status_forcelist.contains status

/-- `Retry.get_backoff_time`: zero while the consecutive-error history has
at most one entry, else `backoff_factor * 2 ** (len - 1)` capped at
`backoff_max`.  `historyLen` is the number of consecutive non-redirect
entries in `Retry.history`. -/
def Retry.getBackoffTime (r : Retry) (historyLen : Nat) : ℚ :=
  if historyLen ≤ 1 then 0
  else min r.backoff_max (r.backoff_factor * 2 ^ (historyLen - 1))

/-- Result of `HTTPConnectionPool.urlopen` on the status-retry path:
either a response, or `MaxRetryError` (modelled as `Except.error ()`),
together with the number of transport attempts made and the backoff delay
computed before each retry (a zero entry means `Retry._sleep_backoff`
returned without sleeping). -/
structure UrlopenOutcome where
  result : Except Unit Response
  attempts : Nat
  backoffs : List ℚ
  deriving Repr

/-- The status-retry recursion of `HTTPConnectionPool.urlopen`: perform
one attempt; if `is_retry` holds for the response, `Retry.increment`
(which appends one history entry and decrements `total`, raising
`MaxRetryError` when the count is exhausted and `raise_on_status` is set,
else returning the response), then `retries.sleep(response)` and recurse.
`total` is the remaining retry budget, `hist` the history length so far,
`attempt` the 0-based index of the current attempt. -/
def urlopenStatusLoop (conf : Retry) (method : String) (transport : Nat → Response) :
    Nat → Nat → Nat → UrlopenOutcome
  | 0, _hist, attempt =>
      let resp := transport attempt
      if conf.isRetry method resp.status then
        if conf.raise_on_status then ⟨Except.error (), attempt + 1, []⟩
        else ⟨Except.ok resp, attempt + 1, []⟩
      else ⟨Except.ok resp, attempt + 1, []⟩
  | t + 1, hist, attempt =>
      let resp := transport attempt
      if conf.isRetry method resp.status then
        let rest := urlopenStatusLoop conf method transport t (hist + 1) (attempt + 1)
        ⟨rest.result, rest.attempts, conf.getBackoffTime (hist + 1) :: rest.backoffs⟩
      else ⟨Except.ok resp, attempt + 1, []⟩

/-- The exception classes distinguished by the `except` ladder of
`HTTPClient._request`.  `retryError` is `requests.exceptions.RetryError`,
raised by `HTTPAdapter.send` when urlopen's `MaxRetryError` carries a
`ResponseError` reason (status-retry exhaustion); it is a subclass of
`RequestException`. -/
inductive PyExc where
  | timeout
  | connectionError
  | tooManyRedirects
  | retryError
  | otherRequestException
  | otherException
  deriving DecidableEq, Repr

/-- The abstract transport oracle a dispatch call runs against: either the
server answers every attempt (attempt index ↦ response), or the transport
raises one of the handled exception classes. -/
inductive TransportBehavior where
  | responds (f : Nat → Response)
  | raises (e : PyExc)

/-- What `self.session.request(...)` yields: a response or a raised
`requests` exception, plus the transport attempts made and the backoff
delays computed between them. -/
structure SessionResult where
  result : Except PyExc Response
  attempts : Nat
  backoffs : List ℚ

/-- `Session.request` through `HTTPAdapter.send`: on the responding
transport, run urlopen under the configured retry strategy and translate
`MaxRetryError(ResponseError)` into `RetryError`; a raising transport
surfaces its exception after its single failed attempt. -/
def sessionRequest (conf : Retry) (method : String) (tb : TransportBehavior) :
    SessionResult :=
  match tb with
  | TransportBehavior.responds f =>
      let o := urlopenStatusLoop conf method f conf.total 0 0
      match o.result with
      | Except.ok r => ⟨Except.ok r, o.attempts, o.backoffs⟩
      | Except.error _ => ⟨Except.error PyExc.retryError, o.attempts, o.backoffs⟩
  | TransportBehavior.raises e => ⟨Except.error e, 1, []⟩

/-- The `requests.Session` state the constructor configures: the default
headers set in `__init__`, the proxies dict, and whether
`session.close()` has cleared the adapters' connection pools.
(`urllib3.PoolManager.clear` empties the pools; `connection_from_host`
re-creates them on the next request, and no code path consults a closed
flag before dispatching.) -/
structure Session where
  userAgent : String
  accept : String
  acceptLanguage : String
  acceptEncoding : String
  connection : String
  upgradeInsecureRequests : String
  cacheControl : String
  proxies : Option (String × String)
  adaptersClosed : Bool
  deriving DecidableEq, Repr

/-- The state of an `HTTPClient` instance: the four config attributes set
in `__init__` plus the session. -/
structure HTTPClient where
  timeout : Int
  delay : ℚ
  retries : Nat
  verify_ssl : Bool
  session : Session
  deriving DecidableEq, Repr

/-- Python truthiness applied by `user_agent or self._get_random_user_agent()`:
both `None` and the empty string are falsy and fall through to the random
choice. -/
def pyOrUserAgent (user_agent : Option String) (rand : Nat) : String :=
  match user_agent with
  | some s => if s = "" then getRandomUserAgent rand else s
  | none => getRandomUserAgent rand

/-- `HTTPClient.__init__(timeout, user_agent, proxy, delay, retries,
verify_ssl)` with the random source made explicit.  Headers are the
`default_headers` dict; proxies are set to `{http: proxy, https: proxy}`
when a proxy is supplied. -/
def mkHTTPClient (timeout : Int) (user_agent : Option String)
    (proxy : Option String) (delay : ℚ) (retries : Nat) (verify_ssl : Bool)
    (rand : Nat) : HTTPClient :=
  { timeout := timeout
    delay := delay
    retries := retries
    verify_ssl := verify_ssl
    session :=
      { userAgent := pyOrUserAgent user_agent rand
        accept := "text/html,application/xhtml+xml,application/xml;q=0.9,*/*;q=0.8"
        acceptLanguage := "en-US,en;q=0.9"
        acceptEncoding := "gzip, deflate"
        connection := "keep-alive"
        upgradeInsecureRequests := "1"
        cacheControl := "max-age=0"
        proxies := proxy.map (fun p => (p, p))
        adaptersClosed := false } }

/-- The keyword arguments of a `get`/`post` call that `_request` gives
defaults to via `kwargs.setdefault`. -/
structure Kwargs where
  timeout : Option Int
  allow_redirects : Option Bool
  verify : Option Bool
  stream : Option Bool
  deriving DecidableEq, Repr

/-- A call with no keyword arguments. -/
def Kwargs.empty : Kwargs :=
  ⟨none, none, none, none⟩

/-- The observable trace of one `_request` call: the pacing sleep (if
any), the effective per-call options after `setdefault`, the User-Agent
header the session sends, the transport attempts and backoff delays, the
returned value (`none` on any caught exception), and the client state
afterwards. -/
structure DispatchTrace where
  pacingSleep : Option ℚ
  effTimeout : Int
  effAllowRedirects : Bool
  effVerify : Bool
  effStream : Bool
  sentUserAgent : String
  attempts : Nat
  backoffs : List ℚ
  result : Option Response
  finalState : HTTPClient
  deriving DecidableEq, Repr

/-- `HTTPClient._request(method, url, **kwargs)`: sleep `self.delay` when
it is positive; fill the four kwargs defaults from the instance config;
call `self.session.request` and return the response, converting every
raised exception (`Timeout`, `ConnectionError`, `TooManyRedirects`, any
other `RequestException`, any other `Exception`) to `None`.  The body
assigns no instance attribute; dispatching re-populates the adapters'
connection pools. -/
def HTTPClient.request (c : HTTPClient) (method : String) (_url : String)
    (kw : Kwargs) (tb : TransportBehavior) : DispatchTrace :=
  let pacing := if c.delay > 0 then some c.delay else none
  let sr := sessionRequest (mkRetryStrategy c.retries) method tb
  let res : Option Response :=
    match sr.result with
    | Except.ok r => some r
    | Except.error PyExc.timeout => none
    | Except.error PyExc.connectionError => none
    | Except.error PyExc.tooManyRedirects => none
    | Except.error PyExc.retryError => none
    | Except.error PyExc.otherRequestException => none
    | Except.error PyExc.otherException => none
  { pacingSleep := pacing
    effTimeout := kw.timeout.getD c.timeout
    effAllowRedirects := kw.allow_redirects.getD true
    effVerify := kw.verify.getD c.verify_ssl
    effStream := kw.stream.getD false
    sentUserAgent := c.session.userAgent
    attempts := sr.attempts
    backoffs := sr.backoffs
    result := res
    finalState := { c with session := { c.session with adaptersClosed := false } } }

/-- `HTTPClient.get(url, **kwargs)`. -/
def HTTPClient.get (c : HTTPClient) (url : String) (kw : Kwargs)
    (tb : TransportBehavior) : DispatchTrace :=
  c.request "GET" url kw tb

/-- `HTTPClient.post(url, data, **kwargs)`.  The body payload is merged
into the transport call and influences none of the modelled observables,
so it is not carried here. -/
def HTTPClient.post (c : HTTPClient) (url : String) (kw : Kwargs)
    (tb : TransportBehavior) : DispatchTrace :=
  c.request "POST" url kw tb

/-- `HTTPClient.close`: `self.session.close()`, which closes the mounted
adapters and thereby clears their connection pools.  It sets no flag that
any later code path reads. -/
def HTTPClient.close (c : HTTPClient) : HTTPClient :=
  { c with session := { c.session with adaptersClosed := true } }

/-- A target that answers every attempt with status 503. -/
def always503 : Nat → Response :=
  fun _ => ⟨503⟩

/-- A target that answers every attempt with status 404. -/
def always404 : Nat → Response :=
  fun _ => ⟨404⟩

/-- The backoff delay urllib3 computes before the n-th retry (1-indexed)
of an uninterrupted run of status retries under the dispatch layer's
configuration: 0 before the first retry, then `0.5 * 2 ^ (n - 1)` capped
at 120 seconds. -/
def backoffDelay (n : Nat) : ℚ :=
  if n ≤ 1 then 0 else min 120 ((0.5 : ℚ) * 2 ^ (n - 1))

/-- Closed form of the status-retry loop against an always-503 target: it
consumes the whole retry budget, makes `total` further attempts after the
current one, ends in `MaxRetryError`, and computes one backoff delay per
retry with the history growing by one entry each time. -/
theorem urlopenStatusLoop_always503_eq (conf : Retry) (method : String)
    (hr : conf.isRetry method 503 = true) (hro : conf.raise_on_status = true) :
    ∀ total hist attempt,
      urlopenStatusLoop conf method always503 total hist attempt =
        ⟨Except.error (), attempt + total + 1,
          (List.range total).map fun i => conf.getBackoffTime (hist + 1 + i)⟩ := by
  intro total
  induction total with
  | zero =>
      intro hist attempt
      simp [urlopenStatusLoop, always503, hr, hro]
  | succ t ih =>
      intro hist attempt
      simp only [urlopenStatusLoop, always503, hr, if_true]
      rw [ih (hist + 1) (attempt + 1)]
      simp only [UrlopenOutcome.mk.injEq]
      refine ⟨trivial, by omega, ?_⟩
      rw [List.range_succ_eq_map, List.map_cons, List.map_map]
      simp only [Function.comp_def]
      refine congrArg₂ List.cons (congrArg conf.getBackoffTime (by omega)) ?_
      exact List.map_congr_left fun i _ => congrArg conf.getBackoffTime (by omega)

/-- A response whose status is not retry-eligible ends the loop after the
current attempt with that response and no backoff. -/
theorem urlopenStatusLoop_no_retry (conf : Retry) (method : String)
    (transport : Nat → Response) (total hist attempt : Nat)
    (h : conf.isRetry method (transport attempt).status = false) :
    urlopenStatusLoop conf method transport total hist attempt =
      ⟨Except.ok (transport attempt), attempt + 1, []⟩ := by
  cases total <;> simp [urlopenStatusLoop, h]

/-- Whatever the target does, the loop never makes more attempts than its
remaining retry budget plus one. -/
theorem urlopenStatusLoop_attempts_le (conf : Retry) (method : String)
    (transport : Nat → Response) :
    ∀ total hist attempt,
      (urlopenStatusLoop conf method transport total hist attempt).attempts ≤
        attempt + total + 1 := by
  intro total
  induction total with
  | zero =>
      intro hist attempt
      by_cases h : conf.isRetry method (transport attempt).status = true <;>
        by_cases hro : conf.raise_on_status = true <;>
          simp_all [urlopenStatusLoop]
  | succ t ih =>
      intro hist attempt
      by_cases h : conf.isRetry method (transport attempt).status = true
      · simp only [urlopenStatusLoop, h, if_true]
        have := ih (hist + 1) (attempt + 1)
        omega
      · simp only [urlopenStatusLoop, Bool.not_eq_true] at h ⊢
        simp [h]

/-- The configured retry strategy computes exactly the `backoffDelay`
schedule. -/
theorem mkRetryStrategy_getBackoffTime (k n : Nat) :
    (mkRetryStrategy k).getBackoffTime n = backoffDelay n :=
  rfl

/-- All backoff delays are nonnegative. -/
theorem backoffDelay_nonneg (n : Nat) : 0 ≤ backoffDelay n := by
  unfold backoffDelay
  split
  · exact le_refl 0
  · exact le_min (by norm_num) (by positivity)

/-- The backoff schedule is monotonically non-decreasing. -/
theorem backoffDelay_mono {i j : Nat} (h : i ≤ j) :
    backoffDelay i ≤ backoffDelay j := by
  unfold backoffDelay
  by_cases hi : i ≤ 1
  · by_cases hj : j ≤ 1
    · simp [hi, hj]
    · simp only [if_pos hi, if_neg hj]
      exact le_min (by norm_num) (by positivity)
  · have hj : ¬ j ≤ 1 := by omega
    simp only [if_neg hi, if_neg hj]
    refine min_le_min (le_refl _) ?_
    refine mul_le_mul_of_nonneg_left ?_ (by norm_num)
    exact pow_le_pow_right₀ (by norm_num) (by omega)

/-- The random choice always lands in the fixed pool. -/
theorem getRandomUserAgent_mem (rand : Nat) :
    getRandomUserAgent rand ∈ userAgentPool :=
  List.get_mem _ _ _

/-- Against an always-503 target, `session.request` under the configured
strategy makes `k + 1` attempts, computes the `backoffDelay` schedule, and
raises `RetryError` (status retries exhausted with `raise_on_status`). -/
theorem sessionRequest_always503 (k : Nat) (method : String)
    (hr : (mkRetryStrategy k).isRetry method 503 = true) :
    sessionRequest (mkRetryStrategy k) method (TransportBehavior.responds always503) =
      ⟨Except.error PyExc.retryError, k + 1,
        (List.range k).map fun i => backoffDelay (i + 1)⟩ := by
  have h := urlopenStatusLoop_always503_eq (mkRetryStrategy k) method hr rfl k 0 0
  have ht : (mkRetryStrategy k).total = k := rfl
  simp only [sessionRequest, ht, h]
  congr 1
  · omega
  · exact List.map_congr_left fun i _ => by
      rw [mkRetryStrategy_getBackoffTime]
      congr 1
      omega

/-- Specialization of `sessionRequest_always503` to GET. -/
theorem sessionRequest_always503_GET (k : Nat) :
    sessionRequest (mkRetryStrategy k) "GET" (TransportBehavior.responds always503) =
      ⟨Except.error PyExc.retryError, k + 1,
        (List.range k).map fun i => backoffDelay (i + 1)⟩ :=
  sessionRequest_always503 k "GET" rfl

/-- Specialization of `sessionRequest_always503` to POST. -/
theorem sessionRequest_always503_POST (k : Nat) :
    sessionRequest (mkRetryStrategy k) "POST" (TransportBehavior.responds always503) =
      ⟨Except.error PyExc.retryError, k + 1,
        (List.range k).map fun i => backoffDelay (i + 1)⟩ :=
  sessionRequest_always503 k "POST" rfl

/-- C1: every exception-like condition the transport can raise — timeout,
connection error, too-many-redirects, any other `RequestException`, and
any other exception — is caught inside `_request` and converted to the
`None` (Failure) result, for `get` and for `post` alike.  No transport
fault escapes: the dispatch functions are total and their only outcomes
are `some response` or `none`. -/
theorem C1_transport_faults_become_failure (c : HTTPClient) (url : String)
    (kw : Kwargs) (e : PyExc) :
    (c.get url kw (TransportBehavior.raises e)).result = none ∧
    (c.post url kw (TransportBehavior.raises e)).result = none := by
  cases e <;>
    simp [HTTPClient.get, HTTPClient.post, HTTPClient.request, sessionRequest]

/-- C2 counterexample: with `retries = 2` and a target that always answers
503, the dispatcher makes 3 transport attempts but the outcome is `none`
(Failure), not a Success carrying the 503 response: urllib3 raises
`MaxRetryError` on status-retry exhaustion (`raise_on_status` defaults to
true), requests turns it into `RetryError`, and `_request` catches that
into `None`. -/
theorem C2_counterexample :
    ((mkHTTPClient 10 none none 0 2 false 0).get "http://target" Kwargs.empty
        (TransportBehavior.responds always503)).attempts = 3 ∧
    ((mkHTTPClient 10 none none 0 2 false 0).get "http://target" Kwargs.empty
        (TransportBehavior.responds always503)).result = none ∧
    ((mkHTTPClient 10 none none 0 2 false 0).get "http://target" Kwargs.empty
        (TransportBehavior.responds always503)).result ≠ some ⟨503⟩ :=
  ⟨rfl, rfl, by decide⟩

/-- C2 amended: for every configured maximum retry count `k`, a request
whose target always answers 503 makes exactly `k + 1` transport attempts
and then returns a Failure outcome (`None`), because exhausting the
status-based retries raises `RetryError`, which the dispatcher converts to
`None`; the last 503 response is not delivered. -/
theorem C2_exhausted_503_yields_failure (k : Nat) (timeout : Int)
    (ua proxy : Option String) (delay : ℚ) (verify : Bool) (rand : Nat)
    (url : String) (kw : Kwargs) :
    ((mkHTTPClient timeout ua proxy delay k verify rand).get url kw
        (TransportBehavior.responds always503)).attempts = k + 1 ∧
    ((mkHTTPClient timeout ua proxy delay k verify rand).get url kw
        (TransportBehavior.responds always503)).result = none := by
  constructor <;>
    simp [HTTPClient.get, HTTPClient.request, mkHTTPClient,
      sessionRequest_always503_GET]

/-- C3 counterexample: with the default configuration (no opt-in exists
anywhere in the constructor or call surface), a POST against an always-503
target is automatically retried — 4 attempts for `retries = 3` — because
`allowed_methods` includes POST unconditionally. -/
theorem C3_counterexample :
    ((mkHTTPClient 10 none none 0 3 false 0).post "http://target" Kwargs.empty
        (TransportBehavior.responds always503)).attempts = 4 ∧
    (mkRetryStrategy 3).isMethodRetryable "POST" = true :=
  ⟨rfl, rfl⟩

/-- C3 amended: automatic retry is applied to GET, HEAD and POST — POST is
retried by default with no caller opt-in — and to no other verb; a
default-configured POST against an always-503 target is retried the full
`k` times. -/
theorem C3_retry_method_policy (k : Nat) (timeout : Int) (ua proxy : Option String)
    (delay : ℚ) (verify : Bool) (rand : Nat) (url : String) (kw : Kwargs) :
    (mkRetryStrategy k).isMethodRetryable "GET" = true ∧
    (mkRetryStrategy k).isMethodRetryable "HEAD" = true ∧
    (mkRetryStrategy k).isMethodRetryable "POST" = true ∧
    (mkRetryStrategy k).isMethodRetryable "PUT" = false ∧
    (mkRetryStrategy k).isMethodRetryable "DELETE" = false ∧
    ((mkHTTPClient timeout ua proxy delay k verify rand).post url kw
        (TransportBehavior.responds always503)).attempts = k + 1 := by
  refine ⟨rfl, rfl, rfl, rfl, rfl, ?_⟩
  simp [HTTPClient.post, HTTPClient.request, mkHTTPClient,
    sessionRequest_always503_POST]

/-- C4 counterexample: the backoff delay observed before retry 1 is 0, not
`base_factor * 2 ^ 0 = 0.5` as the claim's formula requires: urllib3's
`get_backoff_time` returns 0 while the error history has at most one
entry. -/
theorem C4_counterexample :
    ((mkHTTPClient 10 none none 0 1 false 0).get "http://target" Kwargs.empty
        (TransportBehavior.responds always503)).backoffs = [0] ∧
    (0 : ℚ) ≠ (0.5 : ℚ) * 2 ^ (1 - 1) :=
  ⟨rfl, by norm_num⟩

/-- C4 amended: the backoff delay before retry n (1-indexed) is 0 for
n = 1 and `min 120 (0.5 * 2 ^ (n - 1))` for n ≥ 2 (urllib3 sleeps nothing
before the first retry and caps the delay at 120 seconds); the delay
sequence is monotonically non-decreasing, and total transport attempts are
capped at `1 +` the configured maximum retry count for every transport
behaviour. -/
theorem C4_backoff_schedule (k n i j : Nat) (timeout : Int) (ua proxy : Option String)
    (delay : ℚ) (verify : Bool) (rand : Nat) (url : String) (kw : Kwargs)
    (tb : TransportBehavior) (hn : 2 ≤ n) (hij : i ≤ j) :
    ((mkHTTPClient timeout ua proxy delay k verify rand).get url kw
        (TransportBehavior.responds always503)).backoffs =
      (List.range k).map (fun t => backoffDelay (t + 1)) ∧
    backoffDelay 1 = 0 ∧
    backoffDelay n = min 120 ((0.5 : ℚ) * 2 ^ (n - 1)) ∧
    backoffDelay i ≤ backoffDelay j ∧
    ((mkHTTPClient timeout ua proxy delay k verify rand).get url kw tb).attempts ≤
      k + 1 := by
  refine ⟨?_, rfl, ?_, backoffDelay_mono hij, ?_⟩
  · simp [HTTPClient.get, HTTPClient.request, mkHTTPClient,
      sessionRequest_always503_GET]
  · unfold backoffDelay
    rw [if_neg (by omega)]
  · cases tb with
    | raises e =>
        simp [HTTPClient.get, HTTPClient.request, mkHTTPClient, sessionRequest]
    | responds f =>
        have h := urlopenStatusLoop_attempts_le (mkRetryStrategy k) "GET" f k 0 0
        show (sessionRequest (mkRetryStrategy k) "GET"
          (TransportBehavior.responds f)).attempts ≤ k + 1
        simp only [sessionRequest]
        cases hres : (urlopenStatusLoop (mkRetryStrategy k) "GET" f
            (mkRetryStrategy k).total 0 0).result <;>
          simp_all [show (mkRetryStrategy k).total = k from rfl]

/-- C4 witness: the amended schedule at `k = 3`, `n = 2`, `i = 1`,
`j = 2`: delays `[0, 1, 2]`, second retry delayed 1 second, attempts at
most 4. -/
theorem C4_backoff_schedule_witness :
    ((mkHTTPClient 10 none none 0 3 false 0).get "http://target" Kwargs.empty
        (TransportBehavior.responds always503)).backoffs =
      (List.range 3).map (fun t => backoffDelay (t + 1)) ∧
    backoffDelay 1 = 0 ∧
    backoffDelay 2 = min 120 ((0.5 : ℚ) * 2 ^ (2 - 1)) ∧
    backoffDelay 1 ≤ backoffDelay 2 ∧
    ((mkHTTPClient 10 none none 0 3 false 0).get "http://target" Kwargs.empty
        (TransportBehavior.responds always503)).attempts ≤ 3 + 1 :=
  C4_backoff_schedule 3 2 1 2 10 none none 0 false 0 "http://target" Kwargs.empty
    (TransportBehavior.responds always503) (by norm_num) (by norm_num)

/-- C5 counterexample: after `close()` a `get` still dispatches — one
transport attempt is made and a 200 answer is returned as a Success —
because `close()` only closes the session's adapters (clearing their
connection pools, which are re-created on the next request) and no code
path checks a closed state before sending. -/
theorem C5_counterexample :
    (((mkHTTPClient 10 none none 0 3 false 0).close).get "http://target" Kwargs.empty
        (TransportBehavior.responds (fun _ => ⟨200⟩))).result = some ⟨200⟩ ∧
    (((mkHTTPClient 10 none none 0 3 false 0).close).get "http://target" Kwargs.empty
        (TransportBehavior.responds (fun _ => ⟨200⟩))).attempts = 1 :=
  ⟨rfl, rfl⟩

/-- C5 amended: `close()` releases the session's pooled connections but
does not gate dispatch: every subsequent `get`/`post`/`_request` call on
the closed client produces exactly the trace it would have produced before
`close()` — same pacing, same attempts (network I/O included), same
outcome. -/
theorem C5_close_does_not_gate_dispatch (c : HTTPClient) (method url : String)
    (kw : Kwargs) (tb : TransportBehavior) :
    (c.close).request method url kw tb = c.request method url kw tb :=
  rfl

/-- C6 counterexample: an operator-supplied empty identity string is not
used verbatim: `user_agent or self._get_random_user_agent()` treats the
empty string as falsy, so a pool entry is selected instead. -/
theorem C6_counterexample :
    (mkHTTPClient 10 (some "") none 0 3 false 0).session.userAgent =
      getRandomUserAgent 0 ∧
    (mkHTTPClient 10 (some "") none 0 3 false 0).session.userAgent ≠ "" :=
  ⟨rfl, by decide⟩

/-- C6 amended: the User-Agent is selected exactly once at construction —
verbatim when the operator supplies a non-empty string (an empty string is
falsy in Python and triggers the random pool choice), otherwise a member
of the fixed pool — and every request sends exactly the constructed value
and leaves it unchanged; it is never re-selected per call. -/
theorem C6_identity_selected_once (timeout : Int) (s : String) (proxy : Option String)
    (delay : ℚ) (retries : Nat) (verify : Bool) (rand : Nat) (c : HTTPClient)
    (method url : String) (kw : Kwargs) (tb : TransportBehavior) (hs : s ≠ "") :
    (mkHTTPClient timeout (some s) proxy delay retries verify rand).session.userAgent =
      s ∧
    (mkHTTPClient timeout none proxy delay retries verify rand).session.userAgent ∈
      userAgentPool ∧
    (c.request method url kw tb).sentUserAgent = c.session.userAgent ∧
    (c.request method url kw tb).finalState.session.userAgent =
      c.session.userAgent := by
  refine ⟨?_, getRandomUserAgent_mem rand, rfl, rfl⟩
  simp [mkHTTPClient, pyOrUserAgent, hs]

/-- C6 witness: the amended identity behaviour at concrete inputs. -/
theorem C6_identity_selected_once_witness :
    (mkHTTPClient 10 (some "scanner-agent") none 0 3 false 0).session.userAgent =
      "scanner-agent" ∧
    (mkHTTPClient 10 none none 0 3 false 0).session.userAgent ∈ userAgentPool ∧
    ((mkHTTPClient 10 (some "scanner-agent") none 0 3 false 0).request "GET"
        "http://target" Kwargs.empty
        (TransportBehavior.raises PyExc.timeout)).sentUserAgent =
      (mkHTTPClient 10 (some "scanner-agent") none 0 3 false 0).session.userAgent ∧
    ((mkHTTPClient 10 (some "scanner-agent") none 0 3 false 0).request "GET"
        "http://target" Kwargs.empty
        (TransportBehavior.raises PyExc.timeout)).finalState.session.userAgent =
      (mkHTTPClient 10 (some "scanner-agent") none 0 3 false 0).session.userAgent :=
  C6_identity_selected_once 10 "scanner-agent" none 0 3 false 0
    (mkHTTPClient 10 (some "scanner-agent") none 0 3 false 0) "GET" "http://target"
    Kwargs.empty (TransportBehavior.raises PyExc.timeout) (by decide)

/-- C7: a target answering 404 — a status outside the force list — gets
exactly one transport attempt for every configured retry count, and the
outcome is a Success carrying the 404 response. -/
theorem C7_404_single_attempt (k : Nat) (timeout : Int) (ua proxy : Option String)
    (delay : ℚ) (verify : Bool) (rand : Nat) (url : String) (kw : Kwargs) :
    ((mkHTTPClient timeout ua proxy delay k verify rand).get url kw
        (TransportBehavior.responds always404)).attempts = 1 ∧
    ((mkHTTPClient timeout ua proxy delay k verify rand).get url kw
        (TransportBehavior.responds always404)).result = some ⟨404⟩ := by
  have h := urlopenStatusLoop_no_retry (mkRetryStrategy k) "GET" always404 k 0 0 rfl
  have ht : (mkRetryStrategy k).total = k := rfl
  constructor <;>
    simp [HTTPClient.get, HTTPClient.request, mkHTTPClient, sessionRequest, ht, h,
      always404]

/-- C8: the per-call options default to the client configuration — timeout
from the configured timeout, redirect-following enabled, TLS verification
from the configured flag, streaming disabled — exactly when the
corresponding keyword argument is absent, and a caller-supplied value
always wins, for `get` and for `post`. -/
theorem C8_per_call_defaults (c : HTTPClient) (url : String) (kw : Kwargs)
    (tb : TransportBehavior) (tv : Int) (av vv sv : Bool) :
    (kw.timeout = none →
      (c.get url kw tb).effTimeout = c.timeout ∧
      (c.post url kw tb).effTimeout = c.timeout) ∧
    (kw.timeout = some tv →
      (c.get url kw tb).effTimeout = tv ∧ (c.post url kw tb).effTimeout = tv) ∧
    (kw.allow_redirects = none →
      (c.get url kw tb).effAllowRedirects = true ∧
      (c.post url kw tb).effAllowRedirects = true) ∧
    (kw.allow_redirects = some av →
      (c.get url kw tb).effAllowRedirects = av ∧
      (c.post url kw tb).effAllowRedirects = av) ∧
    (kw.verify = none →
      (c.get url kw tb).effVerify = c.verify_ssl ∧
      (c.post url kw tb).effVerify = c.verify_ssl) ∧
    (kw.verify = some vv →
      (c.get url kw tb).effVerify = vv ∧ (c.post url kw tb).effVerify = vv) ∧
    (kw.stream = none →
      (c.get url kw tb).effStream = false ∧ (c.post url kw tb).effStream = false) ∧
    (kw.stream = some sv →
      (c.get url kw tb).effStream = sv ∧ (c.post url kw tb).effStream = sv) := by
  refine ⟨fun h => ?_, fun h => ?_, fun h => ?_, fun h => ?_, fun h => ?_,
    fun h => ?_, fun h => ?_, fun h => ?_⟩ <;>
    exact ⟨by simp [HTTPClient.get, HTTPClient.post, HTTPClient.request, h],
      by simp [HTTPClient.get, HTTPClient.post, HTTPClient.request, h]⟩

/-- C8 witness: the defaults at an empty kwargs and the overrides at a
fully supplied kwargs, on a concrete client. -/
theorem C8_per_call_defaults_witness :
    ((mkHTTPClient 10 none none 0 3 false 0).get "http://target" Kwargs.empty
        (TransportBehavior.raises PyExc.timeout)).effTimeout = 10 ∧
    ((mkHTTPClient 10 none none 0 3 false 0).get "http://target"
        ⟨some 7, some false, some true, some true⟩
        (TransportBehavior.raises PyExc.timeout)).effTimeout = 7 ∧
    ((mkHTTPClient 10 none none 0 3 false 0).get "http://target" Kwargs.empty
        (TransportBehavior.raises PyExc.timeout)).effAllowRedirects = true ∧
    ((mkHTTPClient 10 none none 0 3 false 0).get "http://target"
        ⟨some 7, some false, some true, some true⟩
        (TransportBehavior.raises PyExc.timeout)).effAllowRedirects = false ∧
    ((mkHTTPClient 10 none none 0 3 false 0).get "http://target" Kwargs.empty
        (TransportBehavior.raises PyExc.timeout)).effVerify = false ∧
    ((mkHTTPClient 10 none none 0 3 false 0).get "http://target"
        ⟨some 7, some false, some true, some true⟩
        (TransportBehavior.raises PyExc.timeout)).effVerify = true ∧
    ((mkHTTPClient 10 none none 0 3 false 0).get "http://target" Kwargs.empty
        (TransportBehavior.raises PyExc.timeout)).effStream = false ∧
    ((mkHTTPClient 10 none none 0 3 false 0).get "http://target"
        ⟨some 7, some false, some true, some true⟩
        (TransportBehavior.raises PyExc.timeout)).effStream = true := by
  have hd := C8_per_call_defaults (mkHTTPClient 10 none none 0 3 false 0)
    "http://target" Kwargs.empty (TransportBehavior.raises PyExc.timeout)
    7 false true true
  have ho := C8_per_call_defaults (mkHTTPClient 10 none none 0 3 false 0)
    "http://target" ⟨some 7, some false, some true, some true⟩
    (TransportBehavior.raises PyExc.timeout) 7 false true true
  exact ⟨(hd.1 rfl).1, (ho.2.1 rfl).1, (hd.2.2.1 rfl).1, (ho.2.2.2.1 rfl).1,
    (hd.2.2.2.2.1 rfl).1, (ho.2.2.2.2.2.1 rfl).1, (hd.2.2.2.2.2.2.1 rfl).1,
    (ho.2.2.2.2.2.2.2 rfl).1⟩

/-- C9 counterexample: a configured delay of -1 is nonzero, yet no pacing
sleep occurs, because the guard in `_request` is `self.delay > 0`, not
`self.delay != 0`. -/
theorem C9_counterexample :
    (mkHTTPClient 10 none none (-1) 3 false 0).delay ≠ 0 ∧
    ((mkHTTPClient 10 none none (-1) 3 false 0).get "http://target" Kwargs.empty
        (TransportBehavior.responds always404)).pacingSleep = none := by
  constructor
  · norm_num [mkHTTPClient]
  · rfl

/-- C9 amended: for every `get` or `post` call, if the configured pacing
delay is positive the dispatcher sleeps for exactly that delay before
sending, and if it is zero or negative no pacing sleep occurs. -/
theorem C9_pacing_sleep (c : HTTPClient) (url : String) (kw : Kwargs)
    (tb : TransportBehavior) :
    (0 < c.delay →
      (c.get url kw tb).pacingSleep = some c.delay ∧
      (c.post url kw tb).pacingSleep = some c.delay) ∧
    (c.delay ≤ 0 →
      (c.get url kw tb).pacingSleep = none ∧
      (c.post url kw tb).pacingSleep = none) := by
  constructor
  · intro h
    exact ⟨by simp [HTTPClient.get, HTTPClient.request, h],
      by simp [HTTPClient.post, HTTPClient.request, h]⟩
  · intro h
    have h2 : ¬ (c.delay > 0) := not_lt.mpr h
    exact ⟨by simp [HTTPClient.get, HTTPClient.request, h2],
      by simp [HTTPClient.post, HTTPClient.request, h2]⟩

/-- C9 witness: a delay of 2 sleeps exactly 2; a delay of 0 does not
sleep. -/
theorem C9_pacing_sleep_witness :
    ((mkHTTPClient 10 none none 2 3 false 0).get "http://target" Kwargs.empty
        (TransportBehavior.responds always404)).pacingSleep = some 2 ∧
    ((mkHTTPClient 10 none none 0 3 false 0).get "http://target" Kwargs.empty
        (TransportBehavior.responds always404)).pacingSleep = none := by
  refine ⟨?_, ?_⟩
  · exact ((C9_pacing_sleep (mkHTTPClient 10 none none 2 3 false 0) "http://target"
      Kwargs.empty (TransportBehavior.responds always404)).1 (by decide)).1
  · exact ((C9_pacing_sleep (mkHTTPClient 10 none none 0 3 false 0) "http://target"
      Kwargs.empty (TransportBehavior.responds always404)).2 (by decide)).1

/-- C10: every `get`, `post` and `_request` call leaves the client
configuration unchanged — timeout, delay, retries, verify_ssl, all the
session default headers, and the proxies are identical before and after
the call, for every transport behaviour (success or failure); `get` and
`post` leave exactly the state `_request` leaves. -/
theorem C10_config_frame (c : HTTPClient) (method url : String) (kw : Kwargs)
    (tb : TransportBehavior) :
    ((c.request method url kw tb).finalState.timeout = c.timeout ∧
     (c.request method url kw tb).finalState.delay = c.delay ∧
     (c.request method url kw tb).finalState.retries = c.retries ∧
     (c.request method url kw tb).finalState.verify_ssl = c.verify_ssl) ∧
    ((c.request method url kw tb).finalState.session.userAgent =
        c.session.userAgent ∧
     (c.request method url kw tb).finalState.session.accept = c.session.accept ∧
     (c.request method url kw tb).finalState.session.acceptLanguage =
        c.session.acceptLanguage ∧
     (c.request method url kw tb).finalState.session.acceptEncoding =
        c.session.acceptEncoding ∧
     (c.request method url kw tb).finalState.session.connection =
        c.session.connection ∧
     (c.request method url kw tb).finalState.session.upgradeInsecureRequests =
        c.session.upgradeInsecureRequests ∧
     (c.request method url kw tb).finalState.session.cacheControl =
        c.session.cacheControl ∧
     (c.request method url kw tb).finalState.session.proxies =
        c.session.proxies) ∧
    ((c.get url kw tb).finalState = (c.request "GET" url kw tb).finalState ∧
     (c.post url kw tb).finalState = (c.request "POST" url kw tb).finalState) :=
  ⟨⟨rfl, rfl, rfl, rfl⟩, ⟨rfl, rfl, rfl, rfl, rfl, rfl, rfl, rfl⟩, ⟨rfl, rfl⟩⟩

end NidhzHTTP
